import Mathlib

/-!
Verification of the policy-scraper document acquisition pipeline (src/app.py).

The Python code is shallowly embedded: each relevant function is translated
into an executable Lean definition over explicit data.  External effects
(browser navigation, HTTP responses, database calls) are passed in as
explicit arguments (oracles), so the control flow of the Python source is
modelled exactly while the environment stays abstract.

Python string primitives are modelled by structural-recursive functions over
the character list of a string (so that all definitions evaluate inside the
kernel): pySplitOn models str.split with a literal separator, pyReplace
models str.replace, pyStrip models str.strip with no arguments, pyLower
models str.lower, pyTake models slicing s up to an index.
-/

set_option maxHeartbeats 1000000
set_option maxRecDepth 8000

namespace PolicyScraper

/-- Python truthiness of an optional string: None and the empty string are falsy. -/
def truthyOpt : Option String → Bool
  | Option.none => false
  | Option.some s => s != ""

/-- Python s.lstrip with a slash argument: drop every leading slash. -/
def lstripSlash (s : String) : String :=
  String.mk (s.data.dropWhile (fun c => c = '/'))

/-- Python s.rstrip with a slash argument: drop every trailing slash. -/
def rstripSlash (s : String) : String :=
  String.mk ((s.data.reverse.dropWhile (fun c => c = '/')).reverse)

/-- Occurrence of p as a contiguous sublist of l. -/
def isSubListOf (p : List Char) : List Char → Bool
  | [] => p.isEmpty
  | c :: rest => p.isPrefixOf (c :: rest) || isSubListOf p rest

/-- Python substring containment, pat in s. -/
def strContainsSub (s pat : String) : Bool := isSubListOf pat.data s.data

/-- Python s.startswith pat. -/
def strStarts (s pat : String) : Bool := pat.data.isPrefixOf s.data

/-- Python s.lower, for ASCII content. -/
def pyLower (s : String) : String := String.mk (s.data.map Char.toLower)

/-- Python s.strip with no arguments: drop leading and trailing whitespace. -/
def pyStrip (s : String) : String :=
  String.mk (((s.data.dropWhile Char.isWhitespace).reverse.dropWhile Char.isWhitespace).reverse)

/-- Python slicing s up to index n (first n characters). -/
def pyTake (s : String) (n : Nat) : String := String.mk (s.data.take n)

/-- Splitting a character list at a non-empty literal separator, fuel-driven so
that the recursion is structural (fuel is instantiated with the list length,
which bounds the number of steps). -/
def splitLitGo (sep : List Char) : Nat → List Char → List Char → List (List Char)
  | 0, l, acc => [acc.reverse ++ l]
  | _ + 1, [], acc => [acc.reverse]
  | fuel + 1, c :: rest, acc =>
    if sep.isPrefixOf (c :: rest) then
      acc.reverse :: splitLitGo sep fuel (List.drop sep.length (c :: rest)) []
    else
      splitLitGo sep fuel rest (c :: acc)

/-- Python s.split with a literal separator argument (non-overlapping,
left to right, empty pieces kept). -/
def pySplitOn (s sep : String) : List String :=
  if sep = "" then [s]
  else (splitLitGo sep.data s.data.length s.data []).map String.mk

/-- Replacing every non-overlapping occurrence of a pattern, fuel-driven. -/
def replaceLitGo (pat repl : List Char) : Nat → List Char → List Char
  | 0, l => l
  | _ + 1, [] => []
  | fuel + 1, c :: rest =>
    if pat.isPrefixOf (c :: rest) then
      repl ++ replaceLitGo pat repl fuel (List.drop pat.length (c :: rest))
    else
      c :: replaceLitGo pat repl fuel rest

/-- Python s.replace pat repl (pat non-empty in every use in the source). -/
def pyReplace (s pat repl : String) : String :=
  if pat = "" then s
  else String.mk (replaceLitGo pat.data repl.data s.data.length s.data)

/-- Splitting a character list at every character satisfying p. -/
def splitWsGo (p : Char → Bool) : List Char → List Char → List (List Char)
  | [], acc => [acc.reverse]
  | c :: rest, acc =>
    if p c then acc.reverse :: splitWsGo p rest []
    else splitWsGo p rest (c :: acc)

/-- Python s.split with no argument: the list of whitespace-separated words. -/
def pyWords (s : String) : List String :=
  ((splitWsGo Char.isWhitespace s.data []).map String.mk).filter (fun w => w != "")

/-- Python join of s.split with single spaces: whitespace normalization. -/
def normalizeWs (s : String) : String := String.intercalate " " (pyWords s)

/-- Python len of s.split: the number of whitespace-separated words. -/
def wordCount (s : String) : Nat := (pyWords s).length

/-! ## Artifact Renderer: paragraph blocks of create_pdf_from_text

src/app.py lines 212 to 221.  Note that the Python source writes the
separator and the inner newline with escaped backslashes, so the split is on
the four-character sequence backslash n backslash n and the replace targets
the two-character sequence backslash n, not actual line breaks. -/

/-- The paragraph blocks emitted by create_pdf_from_text after its title
block: split the text on the literal backslash-n-backslash-n sequence, skip
blank segments, replace literal backslash-n pairs by spaces and strip, keep
only segments of length greater than 10. -/
def pdfParagraphBlocks (text_content : String) : List String :=
  (pySplitOn text_content "\\n\\n").filterMap (fun para =>
    if pyStrip para ≠ "" then
      (fun clean_para => if clean_para.length > 10 then Option.some clean_para else Option.none)
        (pyStrip (pyReplace para "\\n" " "))
    else Option.none)

/-- A Content Extractor output: two substantial segments joined by an actual
double line break, exactly as extract_clean_text joins its blocks. -/
def c1FailingInput : String :=
  "This is the first paragraph segment.\n\nThis is the second paragraph segment."

/-! ## Object Store Client: upload_to_supabase

src/app.py lines 247 to 275.  The HTTP PUT response is passed in as an
explicit status code and body.  Except.error models a raised RuntimeError;
both the success address and the failure diagnostic are returned (Except.ok). -/

def supabaseMissingMsg : String :=
  "Supabase configuration missing (SUPABASE_URL, SUPABASE_KEY, SUPABASE_BUCKET)"

/-- upload_to_supabase: raises when SUPABASE_URL, SUPABASE_KEY or the bucket
argument is falsy; on HTTP 200, 201 or 204 returns the public object URL;
on any other status returns the diagnostic string with status and body. -/
def uploadToSupabase (supabaseUrl supabaseKey : Option String)
    (bucket destPath : String) (status : Nat) (respBody : String) :
    Except String String :=
  match supabaseUrl, supabaseKey with
  | Option.some u, Option.some k =>
    if u != "" && k != "" && bucket != "" then
      if status = 200 ∨ status = 201 ∨ status = 204 then
        Except.ok (rstripSlash u ++ "/storage/v1/object/public/" ++ bucket ++ "/"
          ++ lstripSlash destPath)
      else
        Except.ok ("upload_failed: " ++ toString status ++ " " ++ respBody)
    else Except.error supabaseMissingMsg
  | _, _ => Except.error supabaseMissingMsg

/-! ## Document Catalog: insert_document_record row construction

src/app.py lines 294 to 311.  The row of the parameterized INSERT statement:
the second column is project_id if project_id else None. -/

/-- One row of the documents relation as the code binds it. -/
structure DocumentRow where
  id : String
  project_id : Option String
  filename : Option String
  file_path : Option String
  source : Option String
  status : Option String
  document_content : Option String
deriving DecidableEq

/-- The row bound by insert_document_record: a falsy (empty) project_id is
normalized to NULL before the INSERT. -/
def insertedRow (docId projectId filename filePath source status : String)
    (documentContent : Option String) : DocumentRow :=
  { id := docId
    project_id := if projectId != "" then Option.some projectId else Option.none
    filename := Option.some filename
    file_path := Option.some filePath
    source := Option.some source
    status := Option.some status
    document_content := documentContent }

/-! ## Acquisition Orchestrator: filename derivation

src/app.py lines 514 to 528.  domain and path are the transformed URL parts,
url_hash stands for the first 8 hex characters of the MD5 of the full URL
(the hash itself is an external capability and is passed in). -/

/-- domain = netloc.replace on www. then on dots. -/
def deriveDomain (netloc : String) : String :=
  pyReplace (pyReplace netloc "www." "") "." "_"

/-- path = parsed path with slashes and dots replaced by underscores. -/
def transformPath (p : String) : String :=
  pyReplace (pyReplace p "/" "_") "." "_"

/-- filename_base: domain plus path truncated to 50 characters when the
transformed path is non-empty and longer than 5 characters, otherwise the
untruncated domain underscore hash form. -/
def filenameBase (domain path url_hash : String) : String :=
  if path ≠ "" ∧ path.length > 5 then pyTake (domain ++ path) 50
  else domain ++ "_" ++ url_hash

/-- The per-character substitution of re.sub on the class
not-alphanumeric-underscore-hyphen. -/
def replaceNonFilenameChar (c : Char) : Char :=
  if c.isAlphanum || c = '_' || c = '-' then c else '_'

/-- clean_filename = re.sub applied to filename_base. -/
def cleanFilename (domain path url_hash : String) : String :=
  String.mk ((filenameBase domain path url_hash).data.map replaceNonFilenameChar)

/-! ## Content Extractor: extract_clean_text

src/app.py lines 69 to 168.  The parsed HTML document is modelled as a DOM
tree in first-child next-sibling form (a single plain inductive, so every
function below is structural and kernel-evaluable): Dom.elem carries the tag
name, the raw class attribute value, the raw id attribute value, the forest
of children, and the next sibling; Dom.text is a text node with its next
sibling; Dom.nil ends a sibling chain. -/

inductive Dom where
  | nil : Dom
  | text (s : String) (sib : Dom) : Dom
  | elem (tag : String) (classAttr idAttr : Option String) (child sib : Dom) : Dom
deriving DecidableEq

/-- The tag names removed outright (lines 89 to 99). -/
def unwantedTags : List String :=
  ["script", "style", "nav", "header", "footer",
   "aside", "iframe", "img", "video", "audio",
   "form", "button", "input", "select", "textarea",
   "noscript", "meta", "link", "title"]

/-- The substring patterns of the class attribute selectors (lines 102 to 107):
fifteen entries. -/
def unwantedClassPatterns : List String :=
  ["ad", "advertisement", "banner",
   "popup", "modal", "sidebar",
   "menu", "navigation", "nav",
   "header", "footer", "social",
   "share", "comment", "related"]

/-- The substring patterns of the id attribute selectors (lines 108 to 111):
only eleven entries, stopping at footer. -/
def unwantedIdPatterns : List String :=
  ["ad", "advertisement", "banner",
   "popup", "modal", "sidebar",
   "menu", "navigation", "nav",
   "header", "footer"]

/-- CSS attribute substring matching as soupsieve performs it for class and
id values in HTML: a case-sensitive substring test on the raw attribute
value (class and id are not in the fixed list of case-insensitive HTML
attributes). -/
def attrHasPattern (attr : Option String) (patterns : List String) : Bool :=
  match attr with
  | Option.none => false
  | Option.some v => patterns.any (fun p => strContainsSub v p)

/-- An element matches some selector of unwanted_selectors. -/
def unwantedByAttr (classAttr idAttr : Option String) : Bool :=
  attrHasPattern classAttr unwantedClassPatterns
    || attrHasPattern idAttr unwantedIdPatterns

/-- Removal by tag name (lines 96 to 99): a decomposed element disappears
with its whole subtree. -/
def dropTags : Dom → Dom
  | Dom.nil => Dom.nil
  | Dom.text s sib => Dom.text s (dropTags sib)
  | Dom.elem t c i ch sib =>
    if t ∈ unwantedTags then dropTags sib
    else Dom.elem t c i (dropTags ch) (dropTags sib)

/-- Removal by attribute selector (lines 114 to 116).  The source iterates
the selectors one by one, decomposing every match; since decomposing an
element removes its whole subtree and each selector pass works on the
already-mutated tree, the net effect is exactly one top-down sweep deleting
every element that matches any selector. -/
def scrub : Dom → Dom
  | Dom.nil => Dom.nil
  | Dom.text s sib => Dom.text s (scrub sib)
  | Dom.elem t c i ch sib =>
    if unwantedByAttr c i then scrub sib
    else Dom.elem t c i (scrub ch) (scrub sib)

/-- Is there any element left in the tree whose attributes match an
unwanted selector of the source? -/
def anyCodeMatch : Dom → Bool
  | Dom.nil => false
  | Dom.text _ sib => anyCodeMatch sib
  | Dom.elem _ c i ch sib => unwantedByAttr c i || anyCodeMatch ch || anyCodeMatch sib

/-- Modelled from the claim wording for comparison: the same full pattern
list applied to class and to id, with case-insensitive substring matching. -/
def claimUnwantedByAttr (classAttr idAttr : Option String) : Bool :=
  (match classAttr with
   | Option.none => false
   | Option.some v => unwantedClassPatterns.any (fun p => strContainsSub (pyLower v) p))
  || (match idAttr with
      | Option.none => false
      | Option.some v => unwantedClassPatterns.any (fun p => strContainsSub (pyLower v) p))

/-- Is there any element left in the tree that the claim wording says must
have been removed? -/
def anyClaimMatch : Dom → Bool
  | Dom.nil => false
  | Dom.text _ sib => anyClaimMatch sib
  | Dom.elem _ c i ch sib => claimUnwantedByAttr c i || anyClaimMatch ch || anyClaimMatch sib

/-- The descendant text node strings of a sibling chain, in document order. -/
def textPieces : Dom → List String
  | Dom.nil => []
  | Dom.text s sib => s :: textPieces sib
  | Dom.elem _ _ _ ch sib => textPieces ch ++ textPieces sib

/-- element.get_text with a single-space separator and strip=True: each
descendant string is stripped, empties are skipped, survivors are joined
with single spaces.  The argument is the child forest of the element. -/
def getTextSpace (ch : Dom) : String :=
  String.intercalate " " (((textPieces ch).map pyStrip).filter (fun s => s != ""))

/-- element.get_text with the default empty separator and strip=True,
used by the fallback pass (line 154). -/
def getTextJoined (ch : Dom) : String :=
  String.join (((textPieces ch).map pyStrip).filter (fun s => s != ""))

/-- The allow-list of content-bearing tags (lines 119 to 124). -/
def contentTags : List String :=
  ["p", "div", "section", "article", "main",
   "h1", "h2", "h3", "h4", "h5", "h6",
   "table", "thead", "tbody", "tr", "th", "td",
   "li", "ul", "ol", "blockquote", "pre", "code"]

/-- A word character of the regular expression class: ASCII alphanumerics or
underscore (the source documents are ASCII for the purposes of this model). -/
def isWordChar (c : Char) : Bool := c.isAlphanum || c = '_'

/-- re.match on the whitespace-or-non-word-only class succeeds exactly when
every character is a non-word character (whitespace characters are non-word
characters, so the union collapses). -/
def allNonWord (s : String) : Bool := s.data.all (fun c => !isWordChar c)

/-- The base filters of lines 132 to 136: non-empty, stripped length above 2,
not only whitespace and punctuation, no cookie substring anywhere in the
lowercased text, no subscribe substring in its first 30 characters. -/
def passesBaseFilters (text : String) : Bool :=
  text != ""
    && (pyStrip text).length > 2
    && !(allNonWord text)
    && !(strContainsSub (pyLower text) "cookie")
    && !(strContainsSub (pyTake (pyLower text) 30) "subscribe")

def headingTags : List String := ["h1", "h2", "h3", "h4", "h5", "h6"]

def tableCellTags : List String := ["th", "td"]

/-- The per-element block of lines 127 to 147: the flattened element text,
filtered and tagged.  The element is identified by its tag and the forest of
its children. -/
def elementBlock (tag : String) (ch : Dom) : Option String :=
  (fun text =>
    if passesBaseFilters text then
      if tag ∈ headingTags then Option.some ("[HEADING] " ++ text)
      else if tag ∈ tableCellTags then
        (if wordCount text ≥ 1 then Option.some ("[TABLE] " ++ text) else Option.none)
      else if wordCount text ≥ 2 then Option.some text
      else Option.none
    else Option.none) (getTextSpace ch)

/-- find_all over the allow-list followed by per-element processing: the
matching elements are visited in pre-order (an element before its
descendants), nested matches contributing their own blocks. -/
def collectBlocks : Dom → List String
  | Dom.nil => []
  | Dom.text _ sib => collectBlocks sib
  | Dom.elem t _ _ ch sib =>
    (if t ∈ contentTags then (elementBlock t ch).toList else [])
      ++ collectBlocks ch ++ collectBlocks sib

/-- The inline tags of the lenient fallback pass (line 153). -/
def inlineTags : List String := ["span", "a", "strong", "em", "b", "i"]

/-- The fallback pass of lines 150 to 156: inline elements with
concatenated stripped text of length above 5 and at least one word. -/
def fallbackBlocks : Dom → List String
  | Dom.nil => []
  | Dom.text _ sib => fallbackBlocks sib
  | Dom.elem t _ _ ch sib =>
    (if t ∈ inlineTags then
      (fun text =>
        if text != "" && text.length > 5 && wordCount text ≥ 1 then [text] else [])
        (getTextJoined ch)
     else [])
      ++ fallbackBlocks ch ++ fallbackBlocks sib

/-- soup.find of the body tag: the child forest of the first body element in
pre-order, if any. -/
def findBody : Dom → Option Dom
  | Dom.nil => Option.none
  | Dom.text _ sib => findBody sib
  | Dom.elem t _ _ ch sib =>
    if t = "body" then Option.some ch
    else
      match findBody ch with
      | Option.some r => Option.some r
      | Option.none => findBody sib

/-- body or soup: the scope of the fallback pass (line 152). -/
def fallbackScope (d : Dom) : Dom :=
  match findBody d with
  | Option.some ch => ch
  | Option.none => d

/-- The collected text blocks of the cleaned document: the main pass, or the
fallback pass when the main pass yields nothing (lines 119 to 156). -/
def textContentBlocks (d : Dom) : List String :=
  (fun cleaned =>
    (fun blocks => if blocks = [] then fallbackBlocks (fallbackScope cleaned) else blocks)
      (collectBlocks cleaned))
    (scrub (dropTags d))

/-- The dedup length predicate of line 164 on an already normalized block. -/
def normKeep (c : String) : Bool := decide (2 < (pyStrip c).length)

/-- The dedup loop of lines 158 to 166: normalize whitespace, keep a block
when it was not seen before and its stripped length is above 2, remembering
every kept value. -/
def dedupGo (seen : List String) : List String → List String
  | [] => []
  | t :: rest =>
    (fun clean =>
      if !(seen.contains clean) && normKeep clean then
        clean :: dedupGo (clean :: seen) rest
      else dedupGo seen rest)
      (normalizeWs t)

/-- The normalize-and-length-filter part of the dedup loop, applied to the
whole block list. -/
def processedBlocks (l : List String) : List String :=
  (l.map normalizeWs).filter normKeep

/-- Modelled from the spec wording for comparison with the dedup loop: keep
the first occurrence of every value, preserving first-seen order. -/
def specFirstOccurrences : List String → List String
  | [] => []
  | x :: xs => x :: specFirstOccurrences (xs.filter (fun y => y != x))
termination_by l => l.length
decreasing_by
  simp only [List.length_cons]
  exact Nat.lt_succ_of_le (List.length_filter_le _ _)

/-- extract_clean_text: clean, collect, dedup, join with double line breaks. -/
def extract_clean_text (d : Dom) : String :=
  String.intercalate "\n\n" (dedupGo [] (textContentBlocks d))

/-- A concrete document for the C2 counterexample: a div with uppercase
class ADVERT and a div with id social, each holding a paragraph. -/
def c2Document : Dom :=
  Dom.elem "div" (Option.some "ADVERT") Option.none
    (Dom.elem "p" Option.none Option.none
      (Dom.text "Uppercase advert block with several words" Dom.nil) Dom.nil)
    (Dom.elem "div" Option.none (Option.some "social")
      (Dom.elem "p" Option.none Option.none
        (Dom.text "Social widget text with several words" Dom.nil) Dom.nil)
      Dom.nil)

/-! ## Fetch Strategy Chain: the per-URL retry loop and fallback

src/app.py lines 532 to 621.  One navigation attempt either raises or yields
a rendered page (title and page source); the oracle maps the attempt index
to its outcome.  The static Tier 2 fetch outcome is a second oracle. -/

inductive AttemptOutcome where
  | raises (err : String) : AttemptOutcome
  | page (title html : String) : AttemptOutcome

/-- The bot-block heuristic of lines 549 to 550: the lowercased title
contains blocked or forbidden. -/
def isBlockedTitle (title : String) : Bool :=
  strContainsSub (pyLower title) "blocked" || strContainsSub (pyLower title) "forbidden"

inductive FetchEvent where
  | nav (attempt : Nat) : FetchEvent
  | staticGet : FetchEvent
deriving DecidableEq

/-- The retry loop of lines 534 to 563, with its event trace.  The list
holds the outcomes of the successive attempts (the loop runs over it left to
right, the last element being the final attempt), idx numbers the attempts
for the trace.  A raise on a non-final attempt waits and retries; a raise on
the final attempt re-raises (Except.error, carrying that last error).  A
blocked title on a non-final attempt waits and retries; any other rendered
page, including a blocked one on the final attempt, breaks out of the loop
and its page source becomes the result. -/
def tier1Trace : List AttemptOutcome → Nat → Except String String × List FetchEvent
  | [], _ => (Except.error "", [])
  | [AttemptOutcome.raises e], idx => (Except.error e, [FetchEvent.nav idx])
  | [AttemptOutcome.page _ html], idx => (Except.ok html, [FetchEvent.nav idx])
  | AttemptOutcome.raises _ :: o :: rest, idx =>
    ((tier1Trace (o :: rest) (idx + 1)).1,
     FetchEvent.nav idx :: (tier1Trace (o :: rest) (idx + 1)).2)
  | AttemptOutcome.page title html :: o :: rest, idx =>
    if isBlockedTitle title then
      ((tier1Trace (o :: rest) (idx + 1)).1,
       FetchEvent.nav idx :: (tier1Trace (o :: rest) (idx + 1)).2)
    else (Except.ok html, [FetchEvent.nav idx])

/-- Tier 1 with max_retries = 3: the loop runs over exactly three attempt
outcomes and yields the rendered page source or the error of the final
attempt. -/
def tier1Fetch (o0 o1 o2 : AttemptOutcome) : Except String String :=
  (tier1Trace [o0, o1, o2] 0).1

/-- The per-URL fetch result: which tier produced the page content. -/
inductive UrlMethod where
  | selenium (html : String) : UrlMethod
  | requestsFallback (html : String) : UrlMethod
  | errorArtifact (seleniumErr fallbackErr : String) : UrlMethod
deriving DecidableEq

/-- The per-URL fetch chain of lines 532 to 621: Tier 1 with its three
attempts; on a propagated error, the static Tier 2 GET (whose outcome is
passed in); on a second failure, the synthetic error artifact.  The event
list records navigations and the static fetch in execution order, before the
per-URL result is formed. -/
def scrapeUrlFetch (o0 o1 o2 : AttemptOutcome)
    (staticResult : Except String String) : UrlMethod × List FetchEvent :=
  match tier1Trace [o0, o1, o2] 0 with
  | (Except.ok html, evs) => (UrlMethod.selenium html, evs)
  | (Except.error e, evs) =>
    match staticResult with
    | Except.ok body => (UrlMethod.requestsFallback body, evs ++ [FetchEvent.staticGet])
    | Except.error e2 => (UrlMethod.errorArtifact e e2, evs ++ [FetchEvent.staticGet])

/-- An attempt that renders a blocked page. -/
def blockedAttempt : AttemptOutcome :=
  AttemptOutcome.page "Access Blocked" "BLOCKED_PAGE_HTML"

/-! ## Acquisition Orchestrator: artifact address and Catalog insert decision

src/app.py lines 171 to 244 (create_pdf_from_text address logic) and
lines 574 to 580 (the insert decision). -/

/-- The address returned by create_pdf_from_text: when SUPABASE_URL,
SUPABASE_KEY and SUPABASE_BUCKET are all truthy the artifact is uploaded
(dest name equals the path hint, which carries no directory part) and the
upload result is returned; otherwise the artifact stays at the local path
hint.  When the configuration is complete the upload never raises, so the
error branch of the match is unreachable and merely keeps the function
total. -/
def rendererAddress (supabaseUrl supabaseKey supabaseBucket : Option String)
    (pdfPath : String) (status : Nat) (respBody : String) : String :=
  if truthyOpt supabaseUrl && truthyOpt supabaseKey && truthyOpt supabaseBucket then
    match uploadToSupabase supabaseUrl supabaseKey (supabaseBucket.getD "") pdfPath
        status respBody with
    | Except.ok addr => addr
    | Except.error _ => pdfPath
  else pdfPath

/-- The insert guard of line 576: SUPABASE_URL truthy, created_file a
non-empty string, and created_file starting with the endpoint stripped of
trailing slashes. -/
def insertCondition (supabaseUrl : Option String) (createdFile : String) : Bool :=
  match supabaseUrl with
  | Option.some u => u != "" && createdFile != "" && strStarts createdFile (rstripSlash u)
  | Option.none => false

/-- The arguments of an insert_document_record call. -/
structure CatalogInsert where
  project_id : String
  filename : String
  file_path : String
  source : String
  status : String
  document_content : Option String
deriving DecidableEq

/-- The Catalog insert performed for a URL, if any (lines 574 to 580): only
under the insert guard, and then with source scrape, status pending and a
null document_content. -/
def scrapeCatalogInsert (supabaseUrl : Option String)
    (projectId pdfName createdFile : String) : Option CatalogInsert :=
  if insertCondition supabaseUrl createdFile then
    Option.some
      { project_id := projectId
        filename := pdfName
        file_path := createdFile
        source := "scrape"
        status := "pending"
        document_content := Option.none }
  else Option.none

/-- The document_id of the per-URL result: the insert result under the
guard, null otherwise (the insert itself may also return null on failure). -/
def scrapeDocumentId (supabaseUrl : Option String) (createdFile : String)
    (insertResult : Option String) : Option String :=
  if insertCondition supabaseUrl createdFile then insertResult else Option.none

/-! ## Reprocessing Orchestrator: process_document

src/app.py lines 426 to 474.  The Catalog fetch, the download, the PDF text
extraction and the update are oracles; Except.error carries the HTTPException
status code and detail. -/

structure HttpError where
  statusCode : Nat
  detail : String
deriving DecidableEq

structure ProcessSuccess where
  document_id : String
  status : String
  content_length : Nat
deriving DecidableEq

/-- process_document: the capability check, then the ordered precondition
chain - document fetched, truthy file_path, download succeeded, extraction
non-falsy (neither absent nor empty), update affected a row - each failure
reported as the matching HTTPException, success as the processed result. -/
def process_document (pdfReaderAvailable : Bool) (documentId : String)
    (fetchDocument : Option DocumentRow)
    (downloadResult : Option String)
    (extractResult : Option String)
    (updateOk : Bool) : Except HttpError ProcessSuccess :=
  if !pdfReaderAvailable then
    Except.error ⟨500, "PyPDF2 not available. Install PyPDF2 for PDF text extraction."⟩
  else
    match fetchDocument with
    | Option.none =>
      Except.error ⟨404, "Document with id " ++ documentId ++ " not found"⟩
    | Option.some doc =>
      if !truthyOpt doc.file_path then
        Except.error ⟨400, "Document has no file_path"⟩
      else
        match downloadResult with
        | Option.none => Except.error ⟨500, "Failed to download PDF from Supabase"⟩
        | Option.some _ =>
          match extractResult with
          | Option.none => Except.error ⟨500, "Failed to extract text from PDF"⟩
          | Option.some text =>
            if text = "" then
              Except.error ⟨500, "Failed to extract text from PDF"⟩
            else if updateOk then
              Except.ok ⟨documentId, "processed", text.length⟩
            else
              Except.error ⟨500, "Failed to update document_content in database"⟩

/-! ## Helper lemmas -/

theorem list_isPrefixOf_append (la lb : List Char) : la.isPrefixOf (la ++ lb) = true := by
  induction la with
  | nil => simp [List.isPrefixOf]
  | cons c cs ih => simp [List.isPrefixOf, ih]

theorem strStarts_self_append (a b : String) : strStarts (a ++ b) a = true := by
  simp [strStarts, String.data_append, list_isPrefixOf_append]

theorem strStarts_chain (r s1 s2 s3 s4 : String) :
    strStarts (r ++ s1 ++ s2 ++ s3 ++ s4) r = true := by
  simp [strStarts, String.data_append, List.append_assoc, list_isPrefixOf_append]

theorem str_ne_empty_of_data (s : String) (h : s.data ≠ []) : s ≠ "" := by
  intro he
  exact h (by rw [he])

theorem publicAddr_ne_empty (r b d : String) :
    (r ++ "/storage/v1/object/public/" ++ b ++ "/" ++ d) ≠ "" := by
  apply str_ne_empty_of_data
  simp [String.data_append]

/-! ## C1: paragraph splitting in the Artifact Renderer -/

/-- C1: the claim says that, with document rendering available, every input
text containing an actual double line break is split there, each
sufficiently long side becoming its own paragraph block.  The code splits on
the escaped four-character literal backslash-n-backslash-n instead, so a
Content Extractor output joined with actual double line breaks stays one
single paragraph block: evaluating the embedded code at such an input yields
exactly one block, the whole text, even though the text splits at the actual
separator into two segments each longer than 10 characters after whitespace
normalization. -/
theorem c1_split_on_escaped_separator :
    pdfParagraphBlocks c1FailingInput = [c1FailingInput]
    ∧ pySplitOn c1FailingInput "\n\n"
        = ["This is the first paragraph segment.", "This is the second paragraph segment."]
    ∧ 10 < (normalizeWs "This is the first paragraph segment.").length
    ∧ 10 < (normalizeWs "This is the second paragraph segment.").length :=
  ⟨by decide, by decide, by decide, by decide⟩

/-! ## C2: attribute-based removal in the Content Extractor -/

/-- C2 counterexample: the claim says every element whose class or id
contains, case-insensitively, an entry of the full fifteen-pattern list is
removed with its subtree.  A div with uppercase class ADVERT and a div with
id social both match the claim predicate, yet the cleaned tree is unchanged
and both their texts reach the extractor output: the code matches
case-sensitively and its id list stops at footer. -/
theorem c2_counterexample :
    claimUnwantedByAttr (Option.some "ADVERT") Option.none = true
    ∧ claimUnwantedByAttr Option.none (Option.some "social") = true
    ∧ scrub (dropTags c2Document) = c2Document
    ∧ anyClaimMatch (scrub (dropTags c2Document)) = true
    ∧ extract_clean_text c2Document
        = "Uppercase advert block with several words\n\nSocial widget text with several words" :=
  ⟨by decide, by decide, by decide, by decide, by decide⟩

/-- C2 (amended): every element whose class attribute contains,
case-sensitively, an entry of the fifteen-pattern class list, or whose id
attribute contains, case-sensitively, an entry of the eleven-pattern id list
(which omits social, share, comment and related), is removed together with
its entire subtree before text collection: no such element survives the
scrub pass, and a matching element is dropped with all its children. -/
theorem c2_attr_removal_amended :
    (∀ d : Dom, anyCodeMatch (scrub d) = false)
    ∧ ∀ t c i ch sib, unwantedByAttr c i = true →
        scrub (Dom.elem t c i ch sib) = scrub sib := by
  constructor
  · intro d
    induction d with
    | nil => rfl
    | text s sib ih => simpa [scrub, anyCodeMatch] using ih
    | elem t c i ch sib ih1 ih2 =>
      by_cases h : unwantedByAttr c i = true
      · simpa [scrub, h] using ih2
      · have hb : unwantedByAttr c i = false := by
          simpa using h
        simp [scrub, hb, anyCodeMatch, ih1, ih2]
  · intro t c i ch sib h
    simp [scrub, h]

/-- C2 witness: a div whose class contains sidebar is removed with its
subtree, and the cleaned counterexample document holds no element matching
the selectors of the source. -/
theorem c2_attr_removal_witness :
    scrub (Dom.elem "div" (Option.some "sidebar-left") Option.none
        (Dom.text "menu text" Dom.nil) (Dom.text "kept" Dom.nil))
      = Dom.text "kept" Dom.nil
    ∧ anyCodeMatch (scrub c2Document) = false :=
  ⟨(c2_attr_removal_amended.2 "div" (Option.some "sidebar-left") Option.none
      (Dom.text "menu text" Dom.nil) (Dom.text "kept" Dom.nil) (by decide)).trans (by decide),
   c2_attr_removal_amended.1 c2Document⟩

/-! ## C3: blocked-title handling in Tier 1 -/

/-- C3 counterexample: the claim says that after the third failed attempt
the error propagates to Tier 2 whichever trigger caused the failures.  When
all three attempts render a page whose title contains blocked, the loop
breaks on the final attempt and the blocked page is accepted as the rendered
result instead of any error propagating. -/
theorem c3_counterexample :
    isBlockedTitle "Access Blocked" = true
    ∧ tier1Fetch blockedAttempt blockedAttempt blockedAttempt
        = Except.ok "BLOCKED_PAGE_HTML" :=
  ⟨rfl, rfl⟩

/-- C3 (amended): a rendered page title containing blocked or forbidden is a
retry trigger on non-final attempts just like a navigation exception; after
the final (third) attempt, a navigation exception propagates to Tier 2
(carrying the last error), while a still-blocked page is accepted as the
rendered result. -/
theorem c3_blocked_title_amended :
    (∀ e0 e1 e2, tier1Fetch (AttemptOutcome.raises e0) (AttemptOutcome.raises e1)
        (AttemptOutcome.raises e2) = Except.error e2)
    ∧ (∀ t h, isBlockedTitle t = true →
        tier1Fetch (AttemptOutcome.page t h) (AttemptOutcome.page t h)
          (AttemptOutcome.page t h) = Except.ok h)
    ∧ (∀ e t h o2, isBlockedTitle t = false →
        tier1Fetch (AttemptOutcome.raises e) (AttemptOutcome.page t h) o2 = Except.ok h)
    ∧ (∀ t h t2 h2 o2, isBlockedTitle t = true → isBlockedTitle t2 = false →
        tier1Fetch (AttemptOutcome.page t h) (AttemptOutcome.page t2 h2) o2
          = Except.ok h2) := by
  refine ⟨?_, ?_, ?_, ?_⟩
  · intro e0 e1 e2
    simp [tier1Fetch, tier1Trace]
  · intro t h ht
    simp [tier1Fetch, tier1Trace, ht]
  · intro e t h o2 ht
    simp [tier1Fetch, tier1Trace, ht]
  · intro t h t2 h2 o2 ht ht2
    simp [tier1Fetch, tier1Trace, ht, ht2]

/-- C3 witness: a blocked first attempt retries and the second, unblocked
page is returned. -/
theorem c3_blocked_title_witness :
    tier1Fetch (AttemptOutcome.page "Access Forbidden" "F")
      (AttemptOutcome.page "Fine Title" "OK_HTML") blockedAttempt
      = Except.ok "OK_HTML" :=
  c3_blocked_title_amended.2.2.2 "Access Forbidden" "F" "Fine Title" "OK_HTML"
    blockedAttempt (by decide) (by decide)

/-! ## C4: retry bound and fallback ordering -/

/-- C4: when every rendered attempt raises, the navigation is attempted
exactly three times and then the static Tier 2 fetch is attempted, in that
order, before the per-URL result is formed; the result never carries the
rendered (selenium) method. -/
theorem c4_three_attempts_then_static (e0 e1 e2 : String)
    (staticResult : Except String String) :
    (scrapeUrlFetch (AttemptOutcome.raises e0) (AttemptOutcome.raises e1)
        (AttemptOutcome.raises e2) staticResult).2
      = [FetchEvent.nav 0, FetchEvent.nav 1, FetchEvent.nav 2, FetchEvent.staticGet]
    ∧ ∀ html, (scrapeUrlFetch (AttemptOutcome.raises e0) (AttemptOutcome.raises e1)
        (AttemptOutcome.raises e2) staticResult).1 ≠ UrlMethod.selenium html := by
  have key : tier1Trace [AttemptOutcome.raises e0, AttemptOutcome.raises e1,
      AttemptOutcome.raises e2] 0
      = (Except.error e2, [FetchEvent.nav 0, FetchEvent.nav 1, FetchEvent.nav 2]) := by
    simp [tier1Trace]
  cases staticResult with
  | ok b =>
    refine ⟨by simp [scrapeUrlFetch, key], ?_⟩
    intro html
    simp [scrapeUrlFetch, key]
  | error e =>
    refine ⟨by simp [scrapeUrlFetch, key], ?_⟩
    intro html
    simp [scrapeUrlFetch, key]

/-- C4 witness: the trace at concrete errors with a succeeding static
fetch. -/
theorem c4_three_attempts_witness :
    (scrapeUrlFetch (AttemptOutcome.raises "timeout one") (AttemptOutcome.raises "timeout two")
        (AttemptOutcome.raises "timeout three") (Except.ok "STATIC_HTML")).2
      = [FetchEvent.nav 0, FetchEvent.nav 1, FetchEvent.nav 2, FetchEvent.staticGet] :=
  (c4_three_attempts_then_static "timeout one" "timeout two" "timeout three"
    (Except.ok "STATIC_HTML")).1

/-! ## C5: the Object Store Client contract -/

/-- C5: upload_to_supabase raises exactly when the endpoint, the key or the
bucket is absent (falsy); with full configuration it returns, on HTTP 200,
201 or 204, the deterministic public URL built from the slash-stripped
endpoint, the bucket and the slash-stripped destination path, and on any
other status it returns, without raising, the diagnostic string embedding
the status code and the response body. -/
theorem c5_upload_contract (supabaseUrl supabaseKey : Option String)
    (bucket destPath : String) (status : Nat) (respBody : String) :
    (¬(truthyOpt supabaseUrl = true ∧ truthyOpt supabaseKey = true ∧ bucket ≠ "") →
      uploadToSupabase supabaseUrl supabaseKey bucket destPath status respBody
        = Except.error supabaseMissingMsg)
    ∧ (∀ u, supabaseUrl = Option.some u → u ≠ "" → truthyOpt supabaseKey = true →
        bucket ≠ "" → (status = 200 ∨ status = 201 ∨ status = 204) →
        uploadToSupabase supabaseUrl supabaseKey bucket destPath status respBody
          = Except.ok (rstripSlash u ++ "/storage/v1/object/public/" ++ bucket ++ "/"
              ++ lstripSlash destPath))
    ∧ (∀ u, supabaseUrl = Option.some u → u ≠ "" → truthyOpt supabaseKey = true →
        bucket ≠ "" → ¬(status = 200 ∨ status = 201 ∨ status = 204) →
        uploadToSupabase supabaseUrl supabaseKey bucket destPath status respBody
          = Except.ok ("upload_failed: " ++ toString status ++ " " ++ respBody)) := by
  refine ⟨?_, ?_, ?_⟩
  · intro hmiss
    match supabaseUrl, supabaseKey with
    | Option.none, _ => simp [uploadToSupabase]
    | Option.some u, Option.none => simp [uploadToSupabase]
    | Option.some u, Option.some k =>
      have hall : ¬(u ≠ "" ∧ k ≠ "" ∧ bucket ≠ "") := by
        simpa [truthyOpt] using hmiss
      have hcond : (u != "" && k != "" && bucket != "") = false := by
        rcases not_and_or.mp hall with h | h
        · rw [ne_eq, not_not] at h
          simp [h]
        · rcases not_and_or.mp h with h2 | h2
          · rw [ne_eq, not_not] at h2
            simp [h2]
          · rw [ne_eq, not_not] at h2
            simp [h2]
      simp [uploadToSupabase, hcond]
  · intro u hueq hu hkt hb hst
    subst hueq
    match supabaseKey, hkt with
    | Option.some k, hkt =>
      have hk : k ≠ "" := by simpa [truthyOpt] using hkt
      simp [uploadToSupabase, hu, hk, hb, hst]
  · intro u hueq hu hkt hb hst
    subst hueq
    match supabaseKey, hkt with
    | Option.some k, hkt =>
      have hk : k ≠ "" := by simpa [truthyOpt] using hkt
      simp [uploadToSupabase, hu, hk, hb, hst]

/-- C5 witness: a configured upload with status 200 and a slash-decorated
destination path. -/
theorem c5_upload_witness :
    uploadToSupabase (Option.some "https://store.example") (Option.some "key1") "docs"
        "/folder/file.pdf" 200 ""
      = Except.ok (rstripSlash "https://store.example" ++ "/storage/v1/object/public/"
          ++ "docs" ++ "/" ++ lstripSlash "/folder/file.pdf") :=
  (c5_upload_contract (Option.some "https://store.example") (Option.some "key1") "docs"
      "/folder/file.pdf" 200 "").2.1 "https://store.example" rfl (by decide) (by decide)
    (by decide) (Or.inl rfl)

/-! ## C7: the Catalog insert decision of the Acquisition Orchestrator -/

/-- C7: with a truthy configured endpoint whose slash-stripped form is a
prefix of neither the local path hint nor the failure diagnostic, a Catalog
insert (with source scrape, status pending and null document_content) is
performed for a URL exactly when the artifact address returned by the
renderer starts with the configured endpoint, which happens exactly when the
store is fully configured and the upload returned a success status; a
locally saved artifact or a failed-upload diagnostic never produces a
Catalog row, and the per-URL document_id is null in those cases. -/
theorem c7_insert_iff_uploaded (u : String) (supabaseKey supabaseBucket : Option String)
    (projectId pdfName : String) (status : Nat) (respBody : String)
    (insertResult : Option String)
    (hu : u ≠ "")
    (hlocal : strStarts pdfName (rstripSlash u) = false)
    (hdiag : strStarts ("upload_failed: " ++ toString status ++ " " ++ respBody)
        (rstripSlash u) = false) :
    ((scrapeCatalogInsert (Option.some u) projectId pdfName
        (rendererAddress (Option.some u) supabaseKey supabaseBucket pdfName status respBody)).isSome
      ↔ (truthyOpt supabaseKey = true ∧ truthyOpt supabaseBucket = true
          ∧ (status = 200 ∨ status = 201 ∨ status = 204)))
    ∧ (∀ call, scrapeCatalogInsert (Option.some u) projectId pdfName
          (rendererAddress (Option.some u) supabaseKey supabaseBucket pdfName status respBody)
        = Option.some call →
        call.status = "pending" ∧ call.document_content = Option.none ∧ call.source = "scrape")
    ∧ (scrapeCatalogInsert (Option.some u) projectId pdfName
          (rendererAddress (Option.some u) supabaseKey supabaseBucket pdfName status respBody)
        = Option.none →
      scrapeDocumentId (Option.some u)
          (rendererAddress (Option.some u) supabaseKey supabaseBucket pdfName status respBody)
          insertResult = Option.none) := by
  have hcond : insertCondition (Option.some u)
      (rendererAddress (Option.some u) supabaseKey supabaseBucket pdfName status respBody)
      = (truthyOpt supabaseKey && truthyOpt supabaseBucket
          && decide (status = 200 ∨ status = 201 ∨ status = 204)) := by
    by_cases hk : truthyOpt supabaseKey = true
    · by_cases hb : truthyOpt supabaseBucket = true
      · match supabaseKey, supabaseBucket, hk, hb with
        | Option.some k, Option.some b, hk, hb =>
          have hkne : k ≠ "" := by simpa [truthyOpt] using hk
          have hbne : b ≠ "" := by simpa [truthyOpt] using hb
          by_cases hst : (status = 200 ∨ status = 201 ∨ status = 204)
          · have haddr : rendererAddress (Option.some u) (Option.some k) (Option.some b)
                pdfName status respBody
                = rstripSlash u ++ "/storage/v1/object/public/" ++ b ++ "/"
                  ++ lstripSlash pdfName := by
              simp [rendererAddress, truthyOpt, hu, hkne, hbne, uploadToSupabase, hst]
            rw [haddr]
            have h1 : (u != "") = true := bne_iff_ne.mpr hu
            have h2 : ((rstripSlash u ++ "/storage/v1/object/public/" ++ b ++ "/"
                ++ lstripSlash pdfName) != "") = true :=
              bne_iff_ne.mpr (publicAddr_ne_empty _ _ _)
            have h3 : strStarts (rstripSlash u ++ "/storage/v1/object/public/" ++ b ++ "/"
                ++ lstripSlash pdfName) (rstripSlash u) = true := strStarts_chain _ _ _ _ _
            simp [insertCondition, h1, h2, h3, hst, truthyOpt, hkne, hbne]
          · have haddr : rendererAddress (Option.some u) (Option.some k) (Option.some b)
                pdfName status respBody
                = "upload_failed: " ++ toString status ++ " " ++ respBody := by
              simp [rendererAddress, truthyOpt, hu, hkne, hbne, uploadToSupabase, hst]
            rw [haddr]
            simp [insertCondition, hdiag, hst, truthyOpt, hkne, hbne]
      · have haddr : rendererAddress (Option.some u) supabaseKey supabaseBucket
            pdfName status respBody = pdfName := by
          have hbf : truthyOpt supabaseBucket = false := by simpa using hb
          simp [rendererAddress, hbf]
        rw [haddr]
        have hbf : truthyOpt supabaseBucket = false := by simpa using hb
        simp [insertCondition, hlocal, hbf]
    · have hkf : truthyOpt supabaseKey = false := by simpa using hk
      have haddr : rendererAddress (Option.some u) supabaseKey supabaseBucket
          pdfName status respBody = pdfName := by
        simp [rendererAddress, hkf]
      rw [haddr]
      simp [insertCondition, hlocal, hkf]
  refine ⟨?_, ?_, ?_⟩
  · rw [scrapeCatalogInsert, hcond]
    by_cases hk : truthyOpt supabaseKey = true <;>
      by_cases hb : truthyOpt supabaseBucket = true <;>
        by_cases hst : (status = 200 ∨ status = 201 ∨ status = 204) <;>
          simp [hk, hb, hst]
  · intro call hcall
    rw [scrapeCatalogInsert, hcond] at hcall
    by_cases hall : (truthyOpt supabaseKey && truthyOpt supabaseBucket
        && decide (status = 200 ∨ status = 201 ∨ status = 204)) = true
    · rw [if_pos (by rw [hall])] at hcall
      cases hcall
      exact ⟨rfl, rfl, rfl⟩
    · rw [if_neg (by rw [Bool.not_eq_true] at hall; rw [hall]; simp)] at hcall
      cases hcall
  · intro hnone
    rw [scrapeCatalogInsert, hcond] at hnone
    rw [scrapeDocumentId, hcond]
    by_cases hall : (truthyOpt supabaseKey && truthyOpt supabaseBucket
        && decide (status = 200 ∨ status = 201 ∨ status = 204)) = true
    · rw [if_pos (by rw [hall])] at hnone
      cases hnone
    · rw [if_neg (by rw [Bool.not_eq_true] at hall; rw [hall]; simp)]

/-- C7 witness: a failed upload (status 404) with a configured store
produces no Catalog row and a null document_id. -/
theorem c7_insert_iff_uploaded_witness :
    scrapeDocumentId (Option.some "https://store.example")
        (rendererAddress (Option.some "https://store.example") (Option.some "key1")
          (Option.some "docs") "proj_example_com.pdf" 404 "Bucket not found")
        (Option.some "doc-1")
      = Option.none :=
  (c7_insert_iff_uploaded "https://store.example" (Option.some "key1") (Option.some "docs")
      "proj" "proj_example_com.pdf" 404 "Bucket not found" (Option.some "doc-1")
      (by decide) (by decide) (by decide)).2.2 (by decide)

/-! ## C8: the Reprocessing Orchestrator precondition chain -/

/-- C8: with the PDF reading capability available, process_document checks
its preconditions in the fixed order - document found, truthy file_path,
download succeeded, extraction non-empty, update succeeded - failing with
the structured error of the first unmet one (404 not found, 400 missing
file_path, then 500s), and on success returns the document id, the status
processed and the extracted content length. -/
theorem c8_precondition_order (documentId : String) (fetchDocument : Option DocumentRow)
    (downloadResult extractResult : Option String) (updateOk : Bool) :
    (fetchDocument = Option.none →
      process_document true documentId fetchDocument downloadResult extractResult updateOk
        = Except.error ⟨404, "Document with id " ++ documentId ++ " not found"⟩)
    ∧ (∀ doc, fetchDocument = Option.some doc → truthyOpt doc.file_path = false →
      process_document true documentId fetchDocument downloadResult extractResult updateOk
        = Except.error ⟨400, "Document has no file_path"⟩)
    ∧ (∀ doc, fetchDocument = Option.some doc → truthyOpt doc.file_path = true →
      downloadResult = Option.none →
      process_document true documentId fetchDocument downloadResult extractResult updateOk
        = Except.error ⟨500, "Failed to download PDF from Supabase"⟩)
    ∧ (∀ doc p, fetchDocument = Option.some doc → truthyOpt doc.file_path = true →
      downloadResult = Option.some p →
      (extractResult = Option.none ∨ extractResult = Option.some "") →
      process_document true documentId fetchDocument downloadResult extractResult updateOk
        = Except.error ⟨500, "Failed to extract text from PDF"⟩)
    ∧ (∀ doc p t, fetchDocument = Option.some doc → truthyOpt doc.file_path = true →
      downloadResult = Option.some p → extractResult = Option.some t → t ≠ "" →
      updateOk = false →
      process_document true documentId fetchDocument downloadResult extractResult updateOk
        = Except.error ⟨500, "Failed to update document_content in database"⟩)
    ∧ (∀ doc p t, fetchDocument = Option.some doc → truthyOpt doc.file_path = true →
      downloadResult = Option.some p → extractResult = Option.some t → t ≠ "" →
      updateOk = true →
      process_document true documentId fetchDocument downloadResult extractResult updateOk
        = Except.ok ⟨documentId, "processed", t.length⟩) := by
  refine ⟨?_, ?_, ?_, ?_, ?_, ?_⟩
  · intro h
    subst h
    simp [process_document]
  · intro doc h hfp
    subst h
    simp [process_document, hfp]
  · intro doc h hfp hd
    subst h
    subst hd
    simp [process_document, hfp]
  · intro doc p h hfp hd he
    subst h
    subst hd
    rcases he with he | he <;> subst he <;> simp [process_document, hfp]
  · intro doc p t h hfp hd he ht hup
    subst h
    subst hd
    subst he
    subst hup
    simp [process_document, hfp, ht]
  · intro doc p t h hfp hd he ht hup
    subst h
    subst hd
    subst he
    subst hup
    simp [process_document, hfp, ht]

/-- C8 witness: the success path at a concrete document. -/
theorem c8_precondition_witness :
    process_document true "doc-1"
        (Option.some ⟨"doc-1", Option.some "proj", Option.some "f.pdf",
          Option.some "https://store.example/f.pdf", Option.some "scrape",
          Option.some "pending", Option.none⟩)
        (Option.some "/tmp/f.pdf") (Option.some "Extracted body text") true
      = Except.ok ⟨"doc-1", "processed", ("Extracted body text" : String).length⟩ :=
  (c8_precondition_order "doc-1"
      (Option.some ⟨"doc-1", Option.some "proj", Option.some "f.pdf",
        Option.some "https://store.example/f.pdf", Option.some "scrape",
        Option.some "pending", Option.none⟩)
      (Option.some "/tmp/f.pdf") (Option.some "Extracted body text") true).2.2.2.2.2
    ⟨"doc-1", Option.some "proj", Option.some "f.pdf",
      Option.some "https://store.example/f.pdf", Option.some "scrape",
      Option.some "pending", Option.none⟩
    "/tmp/f.pdf" "Extracted body text" rfl (by decide) rfl rfl (by decide) rfl

/-! ## C9: project_id normalization on Catalog insert -/

/-- C9: the row bound by insert_document_record carries NULL in the
project_id column whenever the caller-supplied project_id is the empty
(falsy) string, and that column is never the empty string. -/
theorem c9_empty_project_id_null :
    (∀ docId filename filePath source status content,
      (insertedRow docId "" filename filePath source status content).project_id
        = Option.none)
    ∧ ∀ docId projectId filename filePath source status content,
      (insertedRow docId projectId filename filePath source status content).project_id
        ≠ Option.some "" := by
  constructor
  · intro docId filename filePath source status content
    simp [insertedRow]
  · intro docId projectId filename filePath source status content h
    by_cases hp : projectId = ""
    · subst hp
      simp [insertedRow] at h
    · simp [insertedRow, hp] at h

/-- C9 witness: the empty project_id at a concrete insert yields a NULL
column. -/
theorem c9_empty_project_id_null_witness :
    (insertedRow "id-1" "" "f.pdf" "https://store.example/f.pdf" "scrape" "pending"
        Option.none).project_id
      = Option.none :=
  c9_empty_project_id_null.1 "id-1" "f.pdf" "https://store.example/f.pdf" "scrape"
    "pending" Option.none

/-! ## C10: asymmetric truncation in filename derivation -/

/-- C10: when the transformed path is non-empty and longer than 5
characters, the derived base is the first 50 characters of domain plus path,
truncated before the per-character substitution, so the cleaned name never
exceeds 50 characters; otherwise the hash-based base domain underscore hash
is substituted without any truncation, the cleaned name keeping the full
length of domain plus separator plus hash. -/
theorem c10_truncation_asymmetry (domain path url_hash : String) :
    (path ≠ "" → path.length > 5 →
      cleanFilename domain path url_hash
          = String.mk (((domain ++ path).data.take 50).map replaceNonFilenameChar)
        ∧ (cleanFilename domain path url_hash).length ≤ 50)
    ∧ (¬(path ≠ "" ∧ path.length > 5) →
      cleanFilename domain path url_hash
          = String.mk ((domain ++ "_" ++ url_hash).data.map replaceNonFilenameChar)
        ∧ (cleanFilename domain path url_hash).length
            = domain.length + 1 + url_hash.length) := by
  constructor
  · intro h1 h2
    have hc : path ≠ "" ∧ path.length > 5 := ⟨h1, h2⟩
    have hbase : filenameBase domain path url_hash = pyTake (domain ++ path) 50 := by
      unfold filenameBase
      rw [if_pos hc]
    constructor
    · unfold cleanFilename
      rw [hbase]
      rfl
    · unfold cleanFilename
      rw [hbase]
      have hlen : (String.mk (((pyTake (domain ++ path) 50).data).map
          replaceNonFilenameChar)).length
          = (((domain ++ path).data.take 50).map replaceNonFilenameChar).length := rfl
      rw [hlen, List.length_map, List.length_take]
      exact Nat.min_le_left _ _
  · intro h
    have hbase : filenameBase domain path url_hash = domain ++ "_" ++ url_hash := by
      unfold filenameBase
      rw [if_neg h]
    constructor
    · unfold cleanFilename
      rw [hbase]
    · unfold cleanFilename
      rw [hbase]
      have hlen : (String.mk (((domain ++ "_" ++ url_hash).data).map
          replaceNonFilenameChar)).length
          = ((domain ++ "_" ++ url_hash).data.map replaceNonFilenameChar).length := rfl
      rw [hlen, List.length_map, String.data_append, String.data_append,
        List.length_append, List.length_append]
      rfl

/-! ## C6: deduplication in the Content Extractor -/

/-- The dedup loop equals the spec-style first-occurrence filter of the
normalized and length-filtered block list, relative to an initial seen
set. -/
theorem dedupGo_eq_spec (l : List String) :
    ∀ seen, dedupGo seen l
      = specFirstOccurrences ((processedBlocks l).filter (fun c => !(seen.contains c))) := by
  induction l with
  | nil =>
    intro seen
    simp [dedupGo, processedBlocks, specFirstOccurrences]
  | cons t rest ih =>
    intro seen
    by_cases hk : normKeep (normalizeWs t) = true
    · have hp : processedBlocks (t :: rest) = normalizeWs t :: processedBlocks rest := by
        simp [processedBlocks, hk]
      by_cases hs : seen.contains (normalizeWs t) = true
      · simp only [dedupGo]
        rw [hp, List.filter_cons]
        simp only [hs, Bool.not_true, if_false]
        simp [hs, hk, ih seen]
      · have hsf : seen.contains (normalizeWs t) = false := by simpa using hs
        simp only [dedupGo]
        rw [hp, List.filter_cons]
        simp only [hsf, Bool.not_false, if_true]
        rw [specFirstOccurrences]
        simp only [hsf, hk, Bool.not_false, Bool.and_true, if_true]
        rw [ih (normalizeWs t :: seen)]
        congr 1
        rw [List.filter_filter]
        congr 1
        apply List.filter_congr
        intro y _
        show (!((normalizeWs t :: seen).contains y))
          = ((y != normalizeWs t) && !(seen.contains y))
        have hyc : (normalizeWs t :: seen).contains y
            = (y == normalizeWs t || seen.contains y) := rfl
        rw [hyc]
        cases h1 : (y == normalizeWs t) <;> cases h2 : seen.contains y <;>
          simp [beq_iff_eq] at h1 ⊢ <;> simp [h1, h2]
    · have hkf : normKeep (normalizeWs t) = false := by simpa using hk
      have hp : processedBlocks (t :: rest) = processedBlocks rest := by
        simp [processedBlocks, hkf]
      simp only [dedupGo]
      rw [hp]
      simp only [hkf, Bool.and_false, if_false]
      exact ih seen

/-- Every element of the first-occurrence filter is an element of the
input list. -/
theorem specFirstOccurrences_mem_aux :
    ∀ (n : Nat) (l : List String) (y : String), l.length ≤ n →
      y ∈ specFirstOccurrences l → y ∈ l := by
  intro n
  induction n with
  | zero =>
    intro l y hl hy
    have hnil : l = [] := List.eq_nil_of_length_eq_zero (Nat.le_zero.mp hl)
    subst hnil
    simp [specFirstOccurrences] at hy
  | succ n ih =>
    intro l y hl hy
    cases l with
    | nil => simp [specFirstOccurrences] at hy
    | cons x xs =>
      rw [specFirstOccurrences] at hy
      simp only [List.mem_cons] at hy
      rcases hy with rfl | hy
      · exact List.mem_cons_self _ _
      · have hlen : (xs.filter (fun y => y != x)).length ≤ n :=
          le_trans (List.length_filter_le _ _)
            (by simpa using Nat.le_of_succ_le_succ hl)
        have hmem := ih _ y hlen hy
        exact List.mem_cons_of_mem _ (List.mem_filter.mp hmem).1

/-- The first-occurrence filter has no duplicate entries. -/
theorem specFirstOccurrences_nodup_aux :
    ∀ (n : Nat) (l : List String), l.length ≤ n → (specFirstOccurrences l).Nodup := by
  intro n
  induction n with
  | zero =>
    intro l hl
    have hnil : l = [] := List.eq_nil_of_length_eq_zero (Nat.le_zero.mp hl)
    subst hnil
    simp [specFirstOccurrences]
  | succ n ih =>
    intro l hl
    cases l with
    | nil => simp [specFirstOccurrences]
    | cons x xs =>
      rw [specFirstOccurrences]
      have hlen : (xs.filter (fun y => y != x)).length ≤ n :=
        le_trans (List.length_filter_le _ _)
          (by simpa using Nat.le_of_succ_le_succ hl)
      refine List.nodup_cons.mpr ⟨?_, ih _ hlen⟩
      intro hx
      have hmem := specFirstOccurrences_mem_aux n _ x hlen hx
      have := (List.mem_filter.mp hmem).2
      simp at this

theorem specFirstOccurrences_nodup (l : List String) :
    (specFirstOccurrences l).Nodup :=
  specFirstOccurrences_nodup_aux l.length l le_rfl

/-- C6: for every document, the dedup stage of extract_clean_text keeps,
of all surviving normalized blocks, exactly the first occurrence of each
distinct value in first-seen order: the output equals the spec-style
first-occurrence filter of the normalized block list and contains no
duplicate entry. -/
theorem c6_dedup_first_seen (d : Dom) :
    extract_clean_text d
      = String.intercalate "\n\n"
          (specFirstOccurrences (processedBlocks (textContentBlocks d)))
    ∧ (dedupGo [] (textContentBlocks d)).Nodup := by
  have h := dedupGo_eq_spec (textContentBlocks d) []
  have hf : (processedBlocks (textContentBlocks d)).filter
      (fun c => !(([] : List String).contains c))
      = processedBlocks (textContentBlocks d) := by
    simp
  rw [hf] at h
  exact ⟨by rw [extract_clean_text, h], by rw [h]; exact specFirstOccurrences_nodup _⟩

/-- C10 witness: a long transformed path is truncated to 50 characters
before substitution, while a 60-character domain with an empty path keeps
its full 69-character hash-based name. -/
theorem c10_truncation_witness :
    cleanFilename "example_com" "_about_our_company_team_and_more_pages_here_test" "deadbeef"
      = String.mk (((("example_com" : String)
          ++ "_about_our_company_team_and_more_pages_here_test").data.take 50).map
            replaceNonFilenameChar)
    ∧ (cleanFilename
          "a_very_long_domain_name_that_goes_on_and_on_and_on_for_sixty" "" "deadbeef").length
        = ("a_very_long_domain_name_that_goes_on_and_on_and_on_for_sixty" : String).length
          + 1 + ("deadbeef" : String).length :=
  ⟨((c10_truncation_asymmetry "example_com" "_about_our_company_team_and_more_pages_here_test"
      "deadbeef").1 (by decide) (by decide)).1,
   ((c10_truncation_asymmetry "a_very_long_domain_name_that_goes_on_and_on_and_on_for_sixty"
      "" "deadbeef").2 (by decide)).2⟩

end PolicyScraper
